import Mathlib

/-!
Shallow embedding of the rule-synchronization core of the aliyun-ahas Go SDK
(package datasource, plus the data-id constants it uses).

Modelling conventions:
* Go float64 fields are modelled as rationals; the JSON payloads only carry
  decimal literals, and every claim about them concerns comparisons and
  integer truncation, both exact on rationals.
* Go machine-integer fields are modelled as Nat (unsigned) or Int (signed);
  a reduction modulo 2 ^ 32 is written where the source performs uint32
  arithmetic that can wrap (RetryTimeoutSec * 1000).
* A Go method returning a rule pointer is modelled as returning an Option,
  with none standing for the nil pointer.
* The change handlers take the outcome of the external JSON decode step
  (none = Unmarshal error) and return the batch handed to the rule engine
  replacement call (LoadRules), or none when no such call is made.
* External sentinel-golang enum types are modelled as inductives, except
  system.MetricType, which the source also uses at the non-enum value 404
  and is therefore kept numeric.
-/

/-- Truncation of a rational toward zero, modelling the Go conversion of an
in-range float64 value to a signed integer type (int64). -/
def ratTruncToInt (q : ℚ) : ℤ :=
  q.num.tdiv (q.den : ℤ)

/-- Truncation of a rational toward zero, clamped below at zero, modelling
the Go conversion of an in-range float64 value to an unsigned integer type
(uint64). -/
def ratTruncToNat (q : ℚ) : ℕ :=
  (ratTruncToInt q).toNat

namespace flow

/-- Canonical flow rule of the rule engine (the fields the translator sets). -/
structure FlowRule where
  ID : ℕ
  Resource : String
  LimitOrigin : String
  MetricType : ℕ
  Count : ℚ
  RelationStrategy : ℕ
  ControlBehavior : ℕ
  RefResource : String
  WarmUpPeriodSec : ℕ
  MaxQueueingTimeMs : ℕ
  ClusterMode : Bool
  deriving DecidableEq, Repr

end flow

namespace system

/-- Metric type constant Load of the system rule engine. -/
def Load : ℕ := 0

/-- Metric type constant AvgRT of the system rule engine. -/
def AvgRT : ℕ := 1

/-- Metric type constant Concurrency of the system rule engine. -/
def Concurrency : ℕ := 2

/-- Metric type constant InboundQPS of the system rule engine. -/
def InboundQPS : ℕ := 3

/-- Metric type constant CpuUsage of the system rule engine. -/
def CpuUsage : ℕ := 4

/-- Adaptive strategy of a canonical system rule. -/
inductive AdaptiveStrategy where
  | NoAdaptive
  | BBR
  deriving DecidableEq, Repr

/-- Canonical system-protection rule (the fields the translator sets). -/
structure SystemRule where
  ID : ℕ
  TriggerCount : ℚ
  MetricType : ℕ
  Strategy : AdaptiveStrategy
  deriving DecidableEq, Repr

end system

namespace circuitbreaker

/-- Circuit-breaking strategy; SlowRequestRatio is the Go zero value. -/
inductive Strategy where
  | SlowRequestRatio
  | ErrorRatio
  | ErrorCount
  deriving DecidableEq, Repr

/-- Canonical circuit-breaking rule (the fields the translator sets). -/
structure Rule where
  Id : String
  Resource : String
  Strategy : Strategy
  RetryTimeoutMs : ℕ
  MinRequestAmount : ℕ
  StatIntervalMs : ℕ
  MaxAllowedRtMs : ℕ
  Threshold : ℚ
  deriving DecidableEq, Repr

end circuitbreaker

namespace hotspot

/-- Kind tag of a specific hot-spot parameter value. -/
inductive ParamKind where
  | KindInt
  | KindString
  | KindBool
  | KindFloat64
  deriving DecidableEq, Repr

/-- Control behavior of a canonical hot-spot rule. -/
inductive ControlBehavior where
  | Reject
  | Throttling
  deriving DecidableEq, Repr

/-- One per-value override threshold of a canonical hot-spot rule. -/
structure SpecificValue where
  ValKind : ParamKind
  ValStr : String
  Threshold : ℤ
  deriving DecidableEq, Repr

/-- Canonical hot-spot parameter flow rule (the fields the translator sets). -/
structure Rule where
  ID : String
  Resource : String
  MetricType : ℕ
  Threshold : ℚ
  ControlBehavior : ControlBehavior
  ParamIndex : ℤ
  MaxQueueingTimeMs : ℤ
  BurstCount : ℤ
  DurationInSec : ℤ
  ParamsMaxCapacity : ℕ
  SpecificItems : List SpecificValue
  deriving DecidableEq, Repr

end hotspot

/-- Legacy flow rule record decoded from the JSON payload. -/
structure LegacyFlowRule where
  ID : ℕ
  Resource : String
  LimitOrigin : String
  MetricType : ℕ
  Count : ℚ
  Strategy : ℕ
  ControlBehavior : ℕ
  RefResource : String
  WarmUpPeriodSec : ℕ
  MaxQueueingTimeMs : ℕ
  ClusterMode : Bool
  deriving DecidableEq, Repr

/-- Translation of a legacy flow rule: a field-for-field copy. The Go method
always returns a freshly allocated pointer, hence always some. -/
def LegacyFlowRule.ToGoRule (lr : LegacyFlowRule) : Option flow.FlowRule :=
  some {
    ID := lr.ID
    Resource := lr.Resource
    LimitOrigin := lr.LimitOrigin
    MetricType := lr.MetricType
    Count := lr.Count
    RelationStrategy := lr.Strategy
    ControlBehavior := lr.ControlBehavior
    RefResource := lr.RefResource
    WarmUpPeriodSec := lr.WarmUpPeriodSec
    MaxQueueingTimeMs := lr.MaxQueueingTimeMs
    ClusterMode := lr.ClusterMode }

/-- Legacy system rule record decoded from the JSON payload. AvgRt and
MaxConcurrency are int64 in the source; the other three are float64. -/
structure LegacySystemRule where
  ID : ℕ
  Resource : String
  HighestSystemLoad : ℚ
  HighestCpuUsage : ℚ
  InboundQps : ℚ
  AvgRt : ℤ
  MaxConcurrency : ℤ
  deriving DecidableEq, Repr

/-- Priority resolution of the five legacy numeric fields: the first field
that is nonnegative, checked in the order AvgRt, MaxConcurrency, InboundQps,
HighestCpuUsage, HighestSystemLoad, wins; otherwise the sentinel (404, -1). -/
def LegacySystemRule.resolveTypeAndCount (lr : LegacySystemRule) : ℕ × ℚ :=
  if 0 ≤ lr.AvgRt then (system.AvgRT, (lr.AvgRt : ℚ))
  else if 0 ≤ lr.MaxConcurrency then (system.Concurrency, (lr.MaxConcurrency : ℚ))
  else if 0 ≤ lr.InboundQps then (system.InboundQPS, lr.InboundQps)
  else if 0 ≤ lr.HighestCpuUsage then (system.CpuUsage, lr.HighestCpuUsage)
  else if 0 ≤ lr.HighestSystemLoad then (system.Load, lr.HighestSystemLoad)
  else (404, -1)

/-- Translation of a legacy system rule. Adaptive (BBR) strategy exactly for
the Load and CpuUsage metrics. Always returns some: the Go method has no nil
return path. -/
def LegacySystemRule.ToGoRule (lr : LegacySystemRule) : Option system.SystemRule :=
  let mc := lr.resolveTypeAndCount
  let adaptive :=
    if mc.1 = system.Load ∨ mc.1 = system.CpuUsage then system.AdaptiveStrategy.BBR
    else system.AdaptiveStrategy.NoAdaptive
  some { ID := lr.ID, TriggerCount := mc.2, MetricType := mc.1, Strategy := adaptive }

/-- Legacy circuit-breaking (degrade) rule record decoded from the JSON
payload. Threshold carries the legacy "count" field, Strategy the legacy
"grade" field (uint32). -/
structure LegacyDegradeRule where
  ID : ℕ
  Resource : String
  Threshold : ℚ
  Strategy : ℕ
  RetryTimeoutSec : ℕ
  MinRequestAmount : ℕ
  SlowRatioThreshold : ℚ
  StatIntervalMs : ℕ
  deriving DecidableEq, Repr

/-- Translation of a legacy degrade rule. Grade 0 cross-assigns the two
threshold fields (ratio from SlowRatioThreshold, RT bound from Threshold);
grades 1 and 2 keep Threshold; any other grade yields none (nil). The base
record's Strategy and MaxAllowedRtMs hold the Go zero values, and the uint32
multiplication RetryTimeoutSec * 1000 reduces modulo 2 ^ 32. -/
def LegacyDegradeRule.ToGoRule (lr : LegacyDegradeRule) : Option circuitbreaker.Rule :=
  let rule : circuitbreaker.Rule := {
    Id := Nat.repr lr.ID
    Resource := lr.Resource
    Strategy := circuitbreaker.Strategy.SlowRequestRatio
    RetryTimeoutMs := lr.RetryTimeoutSec * 1000 % 2 ^ 32
    MinRequestAmount := lr.MinRequestAmount
    StatIntervalMs := lr.StatIntervalMs
    MaxAllowedRtMs := 0
    Threshold := lr.Threshold }
  match lr.Strategy with
  | 0 => some { rule with
      Strategy := circuitbreaker.Strategy.SlowRequestRatio
      Threshold := lr.SlowRatioThreshold
      MaxAllowedRtMs := ratTruncToNat lr.Threshold }
  | 1 => some { rule with Strategy := circuitbreaker.Strategy.ErrorRatio }
  | 2 => some { rule with Strategy := circuitbreaker.Strategy.ErrorCount }
  | _ => none

/-- Legacy hot-spot override item: object value, per-value count, class type. -/
structure LegacyParamFlowItem where
  Value : String
  Threshold : ℚ
  ParamType : String
  deriving DecidableEq, Repr

/-- Legacy hot-spot parameter flow rule record decoded from the JSON payload. -/
structure LegacyParamFlowRule where
  Id : ℕ
  Resource : String
  MetricType : ℕ
  Threshold : ℚ
  ParamIndex : ℤ
  DurationInSec : ℤ
  ControlBehavior : ℕ
  MaxQueueingTimeMs : ℤ
  BurstCount : ℤ
  SpecificItems : List LegacyParamFlowItem
  ClusterMode : Bool
  deriving DecidableEq, Repr

/-- Loop of LegacyParamFlowRule.ToGoRule re-constructing the specific items:
an item with empty value is skipped; otherwise its kind is chosen by exact
string comparison of the type tag, its per-value threshold truncated to
int64. The Go loop appends at the tail, so structural recursion preserves
the order. -/
def buildSpecificItems : List LegacyParamFlowItem → List hotspot.SpecificValue
  | [] => []
  | v :: rest =>
    if v.Value.length = 0 then buildSpecificItems rest
    else if v.ParamType = "int" ∨ v.ParamType = "long" then
      { ValKind := hotspot.ParamKind.KindInt, ValStr := v.Value,
        Threshold := ratTruncToInt v.Threshold } :: buildSpecificItems rest
    else if v.ParamType = "bool" ∨ v.ParamType = "boolean" then
      { ValKind := hotspot.ParamKind.KindBool, ValStr := v.Value,
        Threshold := ratTruncToInt v.Threshold } :: buildSpecificItems rest
    else if v.ParamType = "double" ∨ v.ParamType = "float" then
      { ValKind := hotspot.ParamKind.KindFloat64, ValStr := v.Value,
        Threshold := ratTruncToInt v.Threshold } :: buildSpecificItems rest
    else
      { ValKind := hotspot.ParamKind.KindString, ValStr := v.Value,
        Threshold := ratTruncToInt v.Threshold } :: buildSpecificItems rest

/-- Translation of a legacy hot-spot rule. Control behavior 2 maps to
Throttling, anything else to Reject; the specific items are rebuilt by
buildSpecificItems (guarded, as in the source, by a nonemptiness test);
capacity constant 500 is attached. Always returns some. -/
def LegacyParamFlowRule.ToGoRule (lr : LegacyParamFlowRule) : Option hotspot.Rule :=
  let cb :=
    if lr.ControlBehavior = 2 then hotspot.ControlBehavior.Throttling
    else hotspot.ControlBehavior.Reject
  let items :=
    if 0 < lr.SpecificItems.length then buildSpecificItems lr.SpecificItems else []
  some {
    ID := Nat.repr lr.Id
    Resource := lr.Resource
    MetricType := lr.MetricType
    Threshold := lr.Threshold
    ControlBehavior := cb
    ParamIndex := lr.ParamIndex
    MaxQueueingTimeMs := lr.MaxQueueingTimeMs
    BurstCount := lr.BurstCount
    DurationInSec := lr.DurationInSec
    ParamsMaxCapacity := 500
    SpecificItems := items }

/-- Data id of the flow rule subscription: the category constant "flow-rule-"
followed by userId, namespace and appName separated by dashes; the grouping
mirrors the left-associated Go string addition. -/
def formFlowRuleDataId (userId namespaceName appName : String) : String :=
  (((("flow-rule-" ++ userId) ++ "-") ++ namespaceName) ++ "-") ++ appName

/-- Data id of the system rule subscription. -/
def formSystemRuleDataId (userId namespaceName appName : String) : String :=
  (((("system-rule-" ++ userId) ++ "-") ++ namespaceName) ++ "-") ++ appName

/-- Data id of the circuit-breaking rule subscription. -/
def formCircuitBreakingRuleDataId (userId namespaceName appName : String) : String :=
  (((("degrade-rule-" ++ userId) ++ "-") ++ namespaceName) ++ "-") ++ appName

/-- Data id of the hot-spot parameter rule subscription. -/
def formParamFlowRuleDataId (userId namespaceName appName : String) : String :=
  (((("param-flow-rule-" ++ userId) ++ "-") ++ namespaceName) ++ "-") ++ appName

/-- Decoded payload envelope of a flow rule change notification. -/
structure FlowRulePayload where
  Version : String
  Data : List LegacyFlowRule
  deriving DecidableEq, Repr

/-- Decoded payload envelope of a system rule change notification. -/
structure SystemRulePayload where
  Version : String
  Data : List LegacySystemRule
  deriving DecidableEq, Repr

/-- Decoded payload envelope of a circuit-breaking rule change notification. -/
structure DegradeRulePayload where
  Version : String
  Data : List LegacyDegradeRule
  deriving DecidableEq, Repr

/-- Decoded payload envelope of a hot-spot rule change notification. -/
structure ParamFlowRulePayload where
  Version : String
  Data : List LegacyParamFlowRule
  deriving DecidableEq, Repr

/-- Flow rule change handler. The argument is the outcome of the JSON decode
(none = Unmarshal error); the result is the batch handed to the flow rule
engine replacement call, or none when the handler returns without making it.
The source loop appends every non-nil translation, i.e. a filterMap. -/
def onFlowRuleChange (decoded : Option FlowRulePayload) : Option (List flow.FlowRule) :=
  match decoded with
  | none => none
  | some d => some (d.Data.filterMap LegacyFlowRule.ToGoRule)

/-- System rule change handler; same shape as onFlowRuleChange. -/
def onSystemRuleChange (decoded : Option SystemRulePayload) : Option (List system.SystemRule) :=
  match decoded with
  | none => none
  | some d => some (d.Data.filterMap LegacySystemRule.ToGoRule)

/-- Circuit-breaking rule change handler; same shape as onFlowRuleChange. -/
def onCircuitBreakingRuleChange (decoded : Option DegradeRulePayload) :
    Option (List circuitbreaker.Rule) :=
  match decoded with
  | none => none
  | some d => some (d.Data.filterMap LegacyDegradeRule.ToGoRule)

/-- Hot-spot rule change handler; same shape as onFlowRuleChange. -/
def onParamFlowRuleChange (decoded : Option ParamFlowRulePayload) :
    Option (List hotspot.Rule) :=
  match decoded with
  | none => none
  | some d => some (d.Data.filterMap LegacyParamFlowRule.ToGoRule)

/-- Spec-side list of the five legacy system fields, paired with their metric
types, in the priority order the spec states: avgRt, maxConcurrency,
inboundQps, cpuUsage, highestSystemLoad. -/
def systemFieldsInOrder (lr : LegacySystemRule) : List (ℕ × ℚ) :=
  [(system.AvgRT, (lr.AvgRt : ℚ)), (system.Concurrency, (lr.MaxConcurrency : ℚ)),
   (system.InboundQPS, lr.InboundQps), (system.CpuUsage, lr.HighestCpuUsage),
   (system.Load, lr.HighestSystemLoad)]

/-- Spec-side restatement of the kind choice of the translator loop: an exact,
case-sensitive match of the type tag against the lowercase tag sets. -/
def paramKindOfTag (t : String) : hotspot.ParamKind :=
  if t = "int" ∨ t = "long" then hotspot.ParamKind.KindInt
  else if t = "bool" ∨ t = "boolean" then hotspot.ParamKind.KindBool
  else if t = "double" ∨ t = "float" then hotspot.ParamKind.KindFloat64
  else hotspot.ParamKind.KindString

/-- Concrete legacy system rule whose first nonnegative field, in priority
order, is InboundQps. -/
def exSystemRule : LegacySystemRule :=
  { ID := 1
    Resource := "r"
    HighestSystemLoad := 9
    HighestCpuUsage := 9
    InboundQps := 2
    AvgRt := -5
    MaxConcurrency := -1 }

/-- Concrete legacy system rule with all five numeric fields negative. -/
def allNegSystemRule : LegacySystemRule :=
  { ID := 7
    Resource := "r"
    HighestSystemLoad := -1
    HighestCpuUsage := -1
    InboundQps := -1
    AvgRt := -1
    MaxConcurrency := -1 }

/-- Concrete legacy degrade rule with grade 0, integer legacy count 20 and
slow ratio one half. -/
def exDegradeRule0 : LegacyDegradeRule :=
  { ID := 3
    Resource := "r"
    Threshold := 20
    Strategy := 0
    RetryTimeoutSec := 5
    MinRequestAmount := 10
    SlowRatioThreshold := mkRat 1 2
    StatIntervalMs := 1000 }

/-- Concrete legacy degrade rule with the unsupported grade 7. -/
def exDegradeRule7 : LegacyDegradeRule :=
  { ID := 1
    Resource := "r"
    Threshold := 5
    Strategy := 7
    RetryTimeoutSec := 1
    MinRequestAmount := 1
    SlowRatioThreshold := 1
    StatIntervalMs := 1000 }

/-- Concrete legacy degrade rule with grade 1 (error ratio). -/
def exDegradeRule1 : LegacyDegradeRule :=
  { ID := 2
    Resource := "r"
    Threshold := 5
    Strategy := 1
    RetryTimeoutSec := 1
    MinRequestAmount := 1
    SlowRatioThreshold := 1
    StatIntervalMs := 1000 }

/-- Concrete hot-spot override item whose type tag is the uppercase "INT". -/
def upperIntItem : LegacyParamFlowItem :=
  { Value := "1", Threshold := 1, ParamType := "INT" }

/-- Concrete legacy hot-spot rule holding only upperIntItem. -/
def exParamRuleUpper : LegacyParamFlowRule :=
  { Id := 1
    Resource := "r"
    MetricType := 1
    Threshold := 10
    ParamIndex := 0
    DurationInSec := 1
    ControlBehavior := 0
    MaxQueueingTimeMs := 0
    BurstCount := 0
    SpecificItems := [upperIntItem]
    ClusterMode := false }

/-- Concrete hot-spot override item with the lowercase tag "long". -/
def longTagItem : LegacyParamFlowItem :=
  { Value := "10", Threshold := 3, ParamType := "long" }

/-- Concrete legacy hot-spot rule holding only longTagItem. -/
def exParamRuleLong : LegacyParamFlowRule :=
  { Id := 2
    Resource := "r"
    MetricType := 1
    Threshold := 10
    ParamIndex := 0
    DurationInSec := 1
    ControlBehavior := 2
    MaxQueueingTimeMs := 0
    BurstCount := 0
    SpecificItems := [longTagItem]
    ClusterMode := false }

/-- Concrete legacy hot-spot rule with one empty-value item and one kept item. -/
def exParamRuleMixed : LegacyParamFlowRule :=
  { Id := 3
    Resource := "r"
    MetricType := 1
    Threshold := 10
    ParamIndex := 0
    DurationInSec := 1
    ControlBehavior := 0
    MaxQueueingTimeMs := 0
    BurstCount := 0
    SpecificItems := [{ Value := "", Threshold := 1, ParamType := "int" },
                      { Value := "a", Threshold := 2, ParamType := "int" }]
    ClusterMode := false }

/-- Concrete hot-spot override item with fractional per-value count 7/2. -/
def fracItem : LegacyParamFlowItem :=
  { Value := "a", Threshold := mkRat 7 2, ParamType := "double" }

/-- Concrete legacy hot-spot rule with fractional global threshold 5/2
holding only fracItem. -/
def exParamRuleFrac : LegacyParamFlowRule :=
  { Id := 4
    Resource := "r"
    MetricType := 1
    Threshold := mkRat 5 2
    ParamIndex := 0
    DurationInSec := 1
    ControlBehavior := 0
    MaxQueueingTimeMs := 0
    BurstCount := 0
    SpecificItems := [fracItem]
    ClusterMode := false }

/-- Concrete legacy flow rule. -/
def exFlowRule : LegacyFlowRule :=
  { ID := 1
    Resource := "r1"
    LimitOrigin := "o"
    MetricType := 1
    Count := 10
    Strategy := 0
    ControlBehavior := 0
    RefResource := ""
    WarmUpPeriodSec := 0
    MaxQueueingTimeMs := 0
    ClusterMode := false }

/-- A string of length zero is the empty string. -/
theorem eq_empty_of_length_eq_zero {s : String} (h : s.length = 0) : s = "" := by
  cases s with
  | mk data =>
    cases data with
    | nil => rfl
    | cons a l => simp [String.length] at h

/-- The source's priority chain computes exactly the first nonnegative entry
of the spec-ordered field list, with the sentinel (404, -1) as default. -/
theorem resolveTypeAndCount_eq_find (lr : LegacySystemRule) :
    lr.resolveTypeAndCount =
      ((systemFieldsInOrder lr).find? (fun q => decide (0 ≤ q.2))).getD (404, -1) := by
  have c1 : (0 ≤ (lr.AvgRt : ℚ)) ↔ 0 ≤ lr.AvgRt := by exact_mod_cast Iff.rfl
  have c2 : (0 ≤ (lr.MaxConcurrency : ℚ)) ↔ 0 ≤ lr.MaxConcurrency := by exact_mod_cast Iff.rfl
  unfold LegacySystemRule.resolveTypeAndCount systemFieldsInOrder
  by_cases h1 : 0 ≤ lr.AvgRt <;>
    by_cases h2 : 0 ≤ lr.MaxConcurrency <;>
      by_cases h3 : 0 ≤ lr.InboundQps <;>
        by_cases h4 : 0 ≤ lr.HighestCpuUsage <;>
          by_cases h5 : 0 ≤ lr.HighestSystemLoad <;>
            simp [List.find?, h1, h2, h3, h4, h5, c1, c2]

/-- C1: for every legacy system rule whose spec-ordered field list (avgRt,
maxConcurrency, inboundQps, cpuUsage, highestSystemLoad) has a first entry
with nonnegative value, the canonical rule's (MetricType, TriggerCount) pair
equals the metric and value of that entry. -/
theorem system_metric_is_first_nonneg_field (lr : LegacySystemRule) (p : ℕ × ℚ)
    (h : (systemFieldsInOrder lr).find? (fun q => decide (0 ≤ q.2)) = some p) :
    ∃ r, lr.ToGoRule = some r ∧ (r.MetricType, r.TriggerCount) = p := by
  have hres : lr.resolveTypeAndCount = p := by
    rw [resolveTypeAndCount_eq_find lr, h]
    rfl
  refine ⟨_, rfl, ?_⟩
  show (lr.resolveTypeAndCount.1, lr.resolveTypeAndCount.2) = p
  rw [hres]

/-- C1 witness: on exSystemRule the first nonnegative field is InboundQps
with value 2, and the translated rule carries exactly that pair. -/
theorem system_metric_is_first_nonneg_field_witness :
    ∃ r, exSystemRule.ToGoRule = some r ∧
      (r.MetricType, r.TriggerCount) = (system.InboundQPS, 2) :=
  system_metric_is_first_nonneg_field exSystemRule (system.InboundQPS, 2) (by decide)

/-- C2 counterexample: for allNegSystemRule (every legacy field negative) the
handler does not drop the translated rule: the batch handed to the system
rule engine replacement call is exactly the one-element list holding the
sentinel rule (metric type 404, trigger count -1), so the rule is not
excluded from that batch as the claim states. -/
theorem system_sentinel_not_dropped_cex :
    onSystemRuleChange (some { Version := "1", Data := [allNegSystemRule] }) =
      some [{ ID := 7
              TriggerCount := -1
              MetricType := 404
              Strategy := system.AdaptiveStrategy.NoAdaptive }] := by decide

/-- C2 amended: for every legacy system rule in which all five legacy numeric
fields are negative, the translator produces the invalid marker (sentinel
metric type 404, count -1) as a non-nil rule, and the system-rule change
handler keeps it: the sentinel rule is a member of the rule set passed to the
rule engine's system-rule replacement call. -/
theorem system_sentinel_passed_to_engine (lr : LegacySystemRule)
    (h1 : lr.AvgRt < 0) (h2 : lr.MaxConcurrency < 0) (h3 : lr.InboundQps < 0)
    (h4 : lr.HighestCpuUsage < 0) (h5 : lr.HighestSystemLoad < 0) :
    lr.ToGoRule = some { ID := lr.ID
                         TriggerCount := -1
                         MetricType := 404
                         Strategy := system.AdaptiveStrategy.NoAdaptive } ∧
    ∀ v d, lr ∈ d →
      ∃ l, onSystemRuleChange (some { Version := v, Data := d }) = some l ∧
        ({ ID := lr.ID
           TriggerCount := -1
           MetricType := 404
           Strategy := system.AdaptiveStrategy.NoAdaptive } : system.SystemRule) ∈ l := by
  have hg : lr.ToGoRule = some { ID := lr.ID
                                 TriggerCount := -1
                                 MetricType := 404
                                 Strategy := system.AdaptiveStrategy.NoAdaptive } := by
    unfold LegacySystemRule.ToGoRule LegacySystemRule.resolveTypeAndCount
    rw [if_neg (not_le.mpr h1), if_neg (not_le.mpr h2), if_neg (not_le.mpr h3),
        if_neg (not_le.mpr h4), if_neg (not_le.mpr h5)]
    rfl
  refine ⟨hg, ?_⟩
  intro v d hd
  exact ⟨_, rfl, List.mem_filterMap.mpr ⟨lr, hd, hg⟩⟩

/-- C2 amended witness: instantiated on allNegSystemRule inside a singleton
batch; the sentinel rule is in the batch passed to the replacement call. -/
theorem system_sentinel_passed_to_engine_witness :
    ∃ l, onSystemRuleChange (some { Version := "w", Data := [allNegSystemRule] }) = some l ∧
      ({ ID := 7
         TriggerCount := -1
         MetricType := 404
         Strategy := system.AdaptiveStrategy.NoAdaptive } : system.SystemRule) ∈ l :=
  (system_sentinel_passed_to_engine allNegSystemRule (by decide) (by decide) (by decide)
      (by decide) (by decide)).2 "w" [allNegSystemRule] (List.mem_cons_self _ _)

/-- C3: for every legacy degrade rule with grade 0 the produced rule uses the
slow-request-ratio strategy, its Threshold equals the legacy
SlowRatioThreshold field, and its MaxAllowedRtMs equals the legacy
count/threshold field (under the uint64 conversion the field types force):
the two legacy fields are cross-assigned relative to their names. -/
theorem degrade_grade0_cross_assignment (lr : LegacyDegradeRule)
    (h : lr.Strategy = 0) :
    ∃ r, lr.ToGoRule = some r ∧
      r.Strategy = circuitbreaker.Strategy.SlowRequestRatio ∧
      r.Threshold = lr.SlowRatioThreshold ∧
      r.MaxAllowedRtMs = ratTruncToNat lr.Threshold := by
  unfold LegacyDegradeRule.ToGoRule
  rw [h]
  exact ⟨_, rfl, rfl, rfl, rfl⟩

/-- C3 witness: on exDegradeRule0 (legacy count 20, slow ratio 1/2) the
produced rule's ratio threshold is 1/2 and its RT bound is 20. -/
theorem degrade_grade0_cross_assignment_witness :
    ∃ r, exDegradeRule0.ToGoRule = some r ∧
      r.Strategy = circuitbreaker.Strategy.SlowRequestRatio ∧
      r.Threshold = mkRat 1 2 ∧
      r.MaxAllowedRtMs = ratTruncToNat 20 :=
  degrade_grade0_cross_assignment exDegradeRule0 rfl

/-- C4: a legacy degrade rule whose grade is not 0, 1 or 2 translates to none
and contributes nothing to the batch the handler passes to the rule engine,
while grades 0, 1 and 2 map to slow-request-ratio, error-ratio and
error-count respectively. -/
theorem degrade_unknown_grade_filtered (lr : LegacyDegradeRule) :
    (lr.Strategy ≠ 0 → lr.Strategy ≠ 1 → lr.Strategy ≠ 2 →
      lr.ToGoRule = none ∧
      ∀ v d₁ d₂,
        onCircuitBreakingRuleChange (some { Version := v, Data := d₁ ++ lr :: d₂ }) =
          onCircuitBreakingRuleChange (some { Version := v, Data := d₁ ++ d₂ })) ∧
    (lr.Strategy = 0 → Option.map circuitbreaker.Rule.Strategy lr.ToGoRule =
      some circuitbreaker.Strategy.SlowRequestRatio) ∧
    (lr.Strategy = 1 → Option.map circuitbreaker.Rule.Strategy lr.ToGoRule =
      some circuitbreaker.Strategy.ErrorRatio) ∧
    (lr.Strategy = 2 → Option.map circuitbreaker.Rule.Strategy lr.ToGoRule =
      some circuitbreaker.Strategy.ErrorCount) := by
  refine ⟨?_, ?_, ?_, ?_⟩
  · intro h0 h1 h2
    have hnone : lr.ToGoRule = none := by
      unfold LegacyDegradeRule.ToGoRule
      rcases hs : lr.Strategy with _ | _ | _ | n
      · exact absurd hs h0
      · exact absurd hs h1
      · exact absurd hs h2
      · rfl
    refine ⟨hnone, ?_⟩
    intro v d₁ d₂
    simp [onCircuitBreakingRuleChange, List.filterMap_append, List.filterMap_cons, hnone]
  · intro h
    unfold LegacyDegradeRule.ToGoRule
    rw [h]
    rfl
  · intro h
    unfold LegacyDegradeRule.ToGoRule
    rw [h]
    rfl
  · intro h
    unfold LegacyDegradeRule.ToGoRule
    rw [h]
    rfl

/-- C4 witness: grade 7 translates to none and is dropped from a singleton
batch, while grade 1 translates to an error-ratio rule. -/
theorem degrade_unknown_grade_filtered_witness :
    (exDegradeRule7.ToGoRule = none ∧
      onCircuitBreakingRuleChange (some { Version := "1", Data := [exDegradeRule7] }) =
        onCircuitBreakingRuleChange (some { Version := "1", Data := [] })) ∧
    Option.map circuitbreaker.Rule.Strategy exDegradeRule1.ToGoRule =
      some circuitbreaker.Strategy.ErrorRatio := by
  refine ⟨⟨?_, ?_⟩, ?_⟩
  · exact ((degrade_unknown_grade_filtered exDegradeRule7).1
      (by decide) (by decide) (by decide)).1
  · exact ((degrade_unknown_grade_filtered exDegradeRule7).1
      (by decide) (by decide) (by decide)).2 "1" [] []
  · exact (degrade_unknown_grade_filtered exDegradeRule1).2.2.1 rfl

/-- Every kept input item (nonempty value) yields a translated item carrying
its value string, its truncated threshold and the kind chosen by exact tag
match. -/
theorem buildSpecificItems_mem_of_mem (v : LegacyParamFlowItem)
    (l : List LegacyParamFlowItem) (hmem : v ∈ l) (hv : v.Value.length ≠ 0) :
    ∃ sv ∈ buildSpecificItems l, sv.ValStr = v.Value ∧
      sv.ValKind = paramKindOfTag v.ParamType ∧
      sv.Threshold = ratTruncToInt v.Threshold := by
  induction l with
  | nil => cases hmem
  | cons a rest ih =>
    rcases List.mem_cons.mp hmem with rfl | htail
    · simp only [buildSpecificItems, paramKindOfTag]
      rw [if_neg hv]
      by_cases t1 : v.ParamType = "int" ∨ v.ParamType = "long"
      · rw [if_pos t1, if_pos t1]
        exact ⟨_, List.mem_cons_self _ _, rfl, rfl, rfl⟩
      · rw [if_neg t1, if_neg t1]
        by_cases t2 : v.ParamType = "bool" ∨ v.ParamType = "boolean"
        · rw [if_pos t2, if_pos t2]
          exact ⟨_, List.mem_cons_self _ _, rfl, rfl, rfl⟩
        · rw [if_neg t2, if_neg t2]
          by_cases t3 : v.ParamType = "double" ∨ v.ParamType = "float"
          · rw [if_pos t3, if_pos t3]
            exact ⟨_, List.mem_cons_self _ _, rfl, rfl, rfl⟩
          · rw [if_neg t3, if_neg t3]
            exact ⟨_, List.mem_cons_self _ _, rfl, rfl, rfl⟩
    · obtain ⟨sv, hsv, hprops⟩ := ih htail
      refine ⟨sv, ?_, hprops⟩
      simp only [buildSpecificItems]
      split
      · exact hsv
      all_goals split
      · exact List.mem_cons_of_mem _ hsv
      all_goals split
      · exact List.mem_cons_of_mem _ hsv
      all_goals split
      all_goals exact List.mem_cons_of_mem _ hsv

/-- C5 counterexample: the tag match is case sensitive, not case insensitive:
the item of exParamRuleUpper carries the tag "INT" and a nonempty value, yet
its translated kind is string, where a case-insensitive match would give
integer. -/
theorem param_kind_not_case_insensitive_cex :
    Option.map (fun r => r.SpecificItems.map hotspot.SpecificValue.ValKind)
        exParamRuleUpper.ToGoRule = some [hotspot.ParamKind.KindString] ∧
    hotspot.ParamKind.KindString ≠ hotspot.ParamKind.KindInt := by decide

/-- C5 amended: for every kept override item (nonempty value) the kind is
inferred by case-sensitive exact string match on the type tag: "int" or
"long" yields integer, "bool" or "boolean" yields boolean, "double" or
"float" yields float, and any other tag — other casings included — yields
string. -/
theorem param_kind_exact_tag_match (lr : LegacyParamFlowRule)
    (v : LegacyParamFlowItem) (hmem : v ∈ lr.SpecificItems)
    (hv : v.Value.length ≠ 0) :
    ∃ r, lr.ToGoRule = some r ∧ ∃ sv ∈ r.SpecificItems,
      sv.ValStr = v.Value ∧ sv.ValKind = paramKindOfTag v.ParamType := by
  have hlen : 0 < lr.SpecificItems.length :=
    List.length_pos.mpr (List.ne_nil_of_mem hmem)
  obtain ⟨sv, hsv, hstr, hkind, hthr⟩ := buildSpecificItems_mem_of_mem v lr.SpecificItems hmem hv
  refine ⟨_, rfl, sv, ?_, hstr, hkind⟩
  show sv ∈ (if 0 < lr.SpecificItems.length then buildSpecificItems lr.SpecificItems else [])
  rw [if_pos hlen]
  exact hsv

/-- C5 amended witness: the lowercase tag "long" yields kind integer on
exParamRuleLong. -/
theorem param_kind_exact_tag_match_witness :
    ∃ r, exParamRuleLong.ToGoRule = some r ∧ ∃ sv ∈ r.SpecificItems,
      sv.ValStr = "10" ∧ sv.ValKind = paramKindOfTag "long" :=
  param_kind_exact_tag_match exParamRuleLong longTagItem
    (List.mem_cons_self _ _) (by decide)

/-- The translated item list is exactly as long as the sublist of input items
with a nonempty value string. -/
theorem buildSpecificItems_length (l : List LegacyParamFlowItem) :
    (buildSpecificItems l).length =
      (l.filter fun v => decide (v.Value ≠ "")).length := by
  induction l with
  | nil => rfl
  | cons a rest ih =>
    by_cases ha : a.Value.length = 0
    · have ha2 : (a.Value ≠ "") = False := by
        simp [eq_empty_of_length_eq_zero ha]
      simp only [buildSpecificItems, List.filter_cons, ha2]
      rw [if_pos ha]
      simpa using ih
    · have ha2 : a.Value ≠ "" := fun he => ha (by simp [he])
      simp only [buildSpecificItems, List.filter_cons]
      rw [if_neg ha]
      repeat' split
      all_goals simp_all [ha2, ih]

/-- Every translated item carries a nonempty value string. -/
theorem buildSpecificItems_valStr_nonempty (l : List LegacyParamFlowItem) :
    ∀ sv ∈ buildSpecificItems l, sv.ValStr ≠ "" := by
  induction l with
  | nil => intro sv h; cases h
  | cons a rest ih =>
    intro sv hsv
    simp only [buildSpecificItems] at hsv
    by_cases ha : a.Value.length = 0
    · rw [if_pos ha] at hsv
      exact ih sv hsv
    · have ha2 : a.Value ≠ "" := fun he => ha (by simp [he])
      rw [if_neg ha] at hsv
      repeat' split at hsv
      all_goals rcases List.mem_cons.mp hsv with rfl | h
      all_goals first
        | exact ha2
        | exact ih sv h

/-- C6: the translated SpecificItems list of every legacy hot-spot rule
omits every override item with empty value string: its length equals the
number of input items with a nonempty value, and every translated entry has
a nonempty value string. -/
theorem param_empty_value_items_skipped (lr : LegacyParamFlowRule) :
    ∃ r, lr.ToGoRule = some r ∧
      r.SpecificItems.length =
        (lr.SpecificItems.filter fun v => decide (v.Value ≠ "")).length ∧
      ∀ sv ∈ r.SpecificItems, sv.ValStr ≠ "" := by
  refine ⟨_, rfl, ?_, ?_⟩
  · show (if 0 < lr.SpecificItems.length then buildSpecificItems lr.SpecificItems
        else []).length = _
    split
    · exact buildSpecificItems_length lr.SpecificItems
    · next hne =>
      have : lr.SpecificItems = [] := by
        cases h : lr.SpecificItems with
        | nil => rfl
        | cons a rest => exact absurd (h ▸ Nat.succ_pos rest.length) hne
      rw [this]
      rfl
  · show ∀ sv ∈ (if 0 < lr.SpecificItems.length
        then buildSpecificItems lr.SpecificItems else []), sv.ValStr ≠ ""
    split
    · exact buildSpecificItems_valStr_nonempty lr.SpecificItems
    · intro sv h
      cases h

/-- C6 witness: instantiated on exParamRuleMixed (one empty-value item, one
kept item): the translated list has length 1, the number of nonempty-value
inputs. -/
theorem param_empty_value_items_skipped_witness :
    ∃ r, exParamRuleMixed.ToGoRule = some r ∧
      r.SpecificItems.length =
        (exParamRuleMixed.SpecificItems.filter fun v => decide (v.Value ≠ "")).length ∧
      ∀ sv ∈ r.SpecificItems, sv.ValStr ≠ "" :=
  param_empty_value_items_skipped exParamRuleMixed

/-- C7: each category's subscription data id is the category constant
("flow-rule-", "system-rule-", "degrade-rule-", "param-flow-rule-")
followed by tenantId, namespace and appName separated by dashes. -/
theorem dataId_naming_scheme (tenantId namespaceName appName : String) :
    formFlowRuleDataId tenantId namespaceName appName =
      "flow-rule-" ++ (tenantId ++ ("-" ++ (namespaceName ++ ("-" ++ appName)))) ∧
    formSystemRuleDataId tenantId namespaceName appName =
      "system-rule-" ++ (tenantId ++ ("-" ++ (namespaceName ++ ("-" ++ appName)))) ∧
    formCircuitBreakingRuleDataId tenantId namespaceName appName =
      "degrade-rule-" ++ (tenantId ++ ("-" ++ (namespaceName ++ ("-" ++ appName)))) ∧
    formParamFlowRuleDataId tenantId namespaceName appName =
      "param-flow-rule-" ++ (tenantId ++ ("-" ++ (namespaceName ++ ("-" ++ appName)))) := by
  refine ⟨?_, ?_, ?_, ?_⟩ <;>
    simp [formFlowRuleDataId, formSystemRuleDataId, formCircuitBreakingRuleDataId,
      formParamFlowRuleDataId, String.append_assoc]

/-- C8: when the JSON decode of a change notification fails, every category's
handler returns without invoking the rule engine's replacement call, so the
previously installed rule set stays in effect and no error propagates. -/
theorem decode_failure_no_engine_call :
    onFlowRuleChange none = none ∧
    onSystemRuleChange none = none ∧
    onCircuitBreakingRuleChange none = none ∧
    onParamFlowRuleChange none = none :=
  ⟨rfl, rfl, rfl, rfl⟩

/-- C9: the flow translator is total and lossless: a decoded batch is handed
to the rule engine as the field-for-field copy of every entry, and the
batch's length always equals the decoded Data array's length. -/
theorem flow_translation_total_lossless (v : String) (d : List LegacyFlowRule) :
    onFlowRuleChange (some { Version := v, Data := d }) =
      some (d.map fun lr =>
        { ID := lr.ID
          Resource := lr.Resource
          LimitOrigin := lr.LimitOrigin
          MetricType := lr.MetricType
          Count := lr.Count
          RelationStrategy := lr.Strategy
          ControlBehavior := lr.ControlBehavior
          RefResource := lr.RefResource
          WarmUpPeriodSec := lr.WarmUpPeriodSec
          MaxQueueingTimeMs := lr.MaxQueueingTimeMs
          ClusterMode := lr.ClusterMode }) ∧
    ∀ l, onFlowRuleChange (some { Version := v, Data := d }) = some l →
      l.length = d.length := by
  have hmap : ∀ dd : List LegacyFlowRule, dd.filterMap LegacyFlowRule.ToGoRule =
      dd.map (fun lr =>
        ({ ID := lr.ID
           Resource := lr.Resource
           LimitOrigin := lr.LimitOrigin
           MetricType := lr.MetricType
           Count := lr.Count
           RelationStrategy := lr.Strategy
           ControlBehavior := lr.ControlBehavior
           RefResource := lr.RefResource
           WarmUpPeriodSec := lr.WarmUpPeriodSec
           MaxQueueingTimeMs := lr.MaxQueueingTimeMs
           ClusterMode := lr.ClusterMode } : flow.FlowRule)) := by
    intro dd
    induction dd with
    | nil => rfl
    | cons a rest ih =>
      simp only [List.map_cons, List.filterMap_cons]
      rw [← ih]
      rfl
  constructor
  · show some (d.filterMap LegacyFlowRule.ToGoRule) = _
    rw [hmap d]
  · intro l hl
    have h2 : some (d.filterMap LegacyFlowRule.ToGoRule) = some l := hl
    obtain rfl := Option.some.inj h2
    rw [hmap d]
    exact List.length_map _ _

/-- C9 witness: a singleton batch translates to the singleton copy and the
lengths agree. -/
theorem flow_translation_total_lossless_witness :
    onFlowRuleChange (some { Version := "1", Data := [exFlowRule] }) =
      some [{ ID := 1
              Resource := "r1"
              LimitOrigin := "o"
              MetricType := 1
              Count := 10
              RelationStrategy := 0
              ControlBehavior := 0
              RefResource := ""
              WarmUpPeriodSec := 0
              MaxQueueingTimeMs := 0
              ClusterMode := false }] ∧
    ([{ ID := 1
        Resource := "r1"
        LimitOrigin := "o"
        MetricType := 1
        Count := 10
        RelationStrategy := 0
        ControlBehavior := 0
        RefResource := ""
        WarmUpPeriodSec := 0
        MaxQueueingTimeMs := 0
        ClusterMode := false }] : List flow.FlowRule).length = [exFlowRule].length :=
  ⟨(flow_translation_total_lossless "1" [exFlowRule]).1,
   (flow_translation_total_lossless "1" [exFlowRule]).2 _
     (flow_translation_total_lossless "1" [exFlowRule]).1⟩

/-- C10: for every legacy hot-spot rule the global threshold is carried to
the canonical rule unchanged, while every kept override item's per-value
threshold appears truncated toward zero (int64 conversion of the legacy
float64 count). -/
theorem param_item_threshold_truncated (lr : LegacyParamFlowRule) :
    ∃ r, lr.ToGoRule = some r ∧ r.Threshold = lr.Threshold ∧
      ∀ v ∈ lr.SpecificItems, v.Value.length ≠ 0 →
        ∃ sv ∈ r.SpecificItems, sv.ValStr = v.Value ∧
          sv.Threshold = ratTruncToInt v.Threshold := by
  refine ⟨_, rfl, rfl, ?_⟩
  intro v hmem hv
  have hlen : 0 < lr.SpecificItems.length :=
    List.length_pos.mpr (List.ne_nil_of_mem hmem)
  obtain ⟨sv, hsv, hstr, hkind, hthr⟩ := buildSpecificItems_mem_of_mem v lr.SpecificItems hmem hv
  refine ⟨sv, ?_, hstr, hthr⟩
  show sv ∈ (if 0 < lr.SpecificItems.length then buildSpecificItems lr.SpecificItems else [])
  rw [if_pos hlen]
  exact hsv

/-- C10 witness: on exParamRuleFrac the global threshold 5/2 is carried
unchanged while the item count 7/2 is truncated, and that truncation equals
3 (fractional part discarded). -/
theorem param_item_threshold_truncated_witness :
    (∃ r, exParamRuleFrac.ToGoRule = some r ∧ r.Threshold = mkRat 5 2 ∧
      ∃ sv ∈ r.SpecificItems, sv.ValStr = "a" ∧
        sv.Threshold = ratTruncToInt (mkRat 7 2)) ∧
    ratTruncToInt (mkRat 7 2) = 3 := by
  refine ⟨?_, by decide⟩
  obtain ⟨r, hr, ht, hitems⟩ := param_item_threshold_truncated exParamRuleFrac
  exact ⟨r, hr, ht, hitems fracItem (List.mem_cons_self _ _) (by decide)⟩
